import Mathlib

/- Formal model of the WeckMethod chatbot core (app.py).

   The core is the function get_simple_chatbot_response(user_query,
   products_df, youtube_df): tokenize the query, filter the product
   table by keyword substring match, join each matched product to the
   YouTube table via pandas str.contains (a regex search), and assemble
   a markdown answer.  DataFrames are modelled as lists of rows; a cell
   is either text or a missing value (NaN).  Operations that raise in
   Python (such as .lower() on a NaN cell, or compiling an id that is
   not a valid or supported regex pattern) are modelled with Except. -/

set_option maxRecDepth 4000

/-- A pandas cell holding either a missing value (NaN) or text. -/
inductive Cell where
  | null : Cell
  | str : String → Cell
deriving DecidableEq, Repr

/-- A row of the products table.  relatedKeywords is none when the
column is absent (Series.get then returns the supplied default),
some Cell.null when the cell is NaN, some (Cell.str s) otherwise. -/
structure ProductRow where
  productID : Cell
  productName : Cell
  productURL : Cell
  relatedKeywords : Option Cell
deriving DecidableEq, Repr

/-- A row of the YouTube links table. -/
structure VideoRow where
  productID : Cell
  videoTitle : Cell
  videoURL : Cell
deriving DecidableEq, Repr

/-- Python str() of a cell: NaN prints as "nan". -/
def cellStr : Cell → String
  | Cell.null => "nan"
  | Cell.str s => s

/-- Python Series.get with a default: the default is used only when the
column is absent; a NaN cell is returned as-is (str() then gives "nan"). -/
def kwGet : Option Cell → String → String
  | none, d => d
  | some c, _ => cellStr c

/-- ASCII lowercase, modelling Python str.lower on ASCII text. -/
def lowerStr (s : String) : String := String.mk (s.data.map Char.toLower)

/-- Python whitespace recognised by str.strip. -/
def isSpaceChar (c : Char) : Bool :=
  c == ' ' || c == '\t' || c == '\n' || c == '\r' || c == '\x0b' || c == '\x0c'

def dropSpaces : List Char → List Char
  | [] => []
  | c :: cs => if isSpaceChar c then dropSpaces cs else c :: cs

/-- Python str.strip(): drop leading and trailing whitespace. -/
def stripStr (s : String) : String :=
  String.mk ((dropSpaces (dropSpaces s.data).reverse).reverse)

/-- Word characters of the regex class used by the tokenizer (ASCII). -/
def isWordChar (c : Char) : Bool := c.isAlpha || c.isDigit || c == '_'

/-- Maximal runs of word characters, as re.findall with a word-run
pattern returns them, left to right.  acc holds the current run reversed. -/
def wordRuns (acc : List Char) : List Char → List (List Char)
  | [] => if acc.isEmpty then [] else [acc.reverse]
  | c :: cs =>
    if isWordChar c then wordRuns (c :: acc) cs
    else if acc.isEmpty then wordRuns [] cs
    else acc.reverse :: wordRuns [] cs

/-- Keyword extraction of app.py line 27: word tokens of length
greater than 2, lowercased, in order of appearance. -/
def user_keywords (q : String) : List String :=
  ((wordRuns [] q.data).filter (fun w => w.length > 2)).map (fun w => lowerStr (String.mk w))

/-- Does xs occur at the start of ys. -/
def beginsWith : List Char → List Char → Bool
  | [], _ => true
  | _ :: _, [] => false
  | x :: xs, y :: ys => x == y && beginsWith xs ys

/-- Python substring membership: xs in ys, for character lists. -/
def occursIn (xs : List Char) : List Char → Bool
  | [] => beginsWith xs []
  | y :: ys => beginsWith xs (y :: ys) || occursIn xs ys

/-- Line 33 of app.py: the search text of one product row.  A NaN
ProductName faults (AttributeError: .lower() on float). -/
def product_text (p : ProductRow) : Except Unit String :=
  match p.productName with
  | Cell.null => Except.error ()
  | Cell.str nm =>
    Except.ok (stripStr (lowerStr nm ++ " " ++ lowerStr (kwGet p.relatedKeywords "")))

/-- The comparison text of a product in total form (used to state the
matcher's contract; agrees with product_text when the name is text). -/
def comparison_text (p : ProductRow) : String :=
  stripStr (lowerStr (cellStr p.productName) ++ " " ++ lowerStr (kwGet p.relatedKeywords ""))

/-- Lines 30-37 of app.py: the matcher loop, keeping table order. -/
def relevant_products (kws : List String) : List ProductRow → Except Unit (List ProductRow)
  | [] => Except.ok []
  | p :: rest =>
    match product_text p with
    | Except.error e => Except.error e
    | Except.ok txt =>
      match relevant_products kws rest with
      | Except.error e => Except.error e
      | Except.ok tail =>
        if kws.any (fun k => occursIn k.data txt.data) then Except.ok (p :: tail)
        else Except.ok tail

/-- An atom of the modelled regex fragment. -/
inductive RAtom where
  | ch : Char → RAtom
  | dot : RAtom
deriving DecidableEq, Repr

/-- An atom with its quantifier. -/
inductive RPiece where
  | once : RAtom → RPiece
  | star : RAtom → RPiece
  | plus : RAtom → RPiece
  | opt : RAtom → RPiece
deriving DecidableEq, Repr

def isQuantChar (c : Char) : Bool := c == '*' || c == '+' || c == '?'

/-- Characters with special meaning in a Python regex pattern. -/
def isRegexSpecial (c : Char) : Bool :=
  c == '.' || c == '^' || c == '$' || c == '*' || c == '+' || c == '?' ||
  c == '{' || c == '}' || c == '[' || c == ']' || c == '(' || c == ')' ||
  c == '|' || c == '\\'

/-- Parse one atom of a Python regex pattern.  none for constructs
outside the modelled fragment (classes, groups, anchors, alternation,
letter or digit escapes) and for a trailing backslash. -/
def parseAtom : List Char → Option (RAtom × List Char)
  | [] => none
  | '.' :: rest => some (RAtom.dot, rest)
  | '\\' :: c :: rest => if c.isAlphanum then none else some (RAtom.ch c, rest)
  | ['\\'] => none
  | c :: rest => if isRegexSpecial c then none else some (RAtom.ch c, rest)

/-- Attach a following quantifier (greedy or lazy) to an atom. -/
def applyQuant (a : RAtom) : List Char → RPiece × List Char
  | '*' :: '?' :: rest => (RPiece.star a, rest)
  | '*' :: rest => (RPiece.star a, rest)
  | '+' :: '?' :: rest => (RPiece.plus a, rest)
  | '+' :: rest => (RPiece.plus a, rest)
  | '?' :: '?' :: rest => (RPiece.opt a, rest)
  | '?' :: rest => (RPiece.opt a, rest)
  | rest => (RPiece.once a, rest)

/-- Parse a Python regex pattern within the modelled fragment: literal
characters, escaped punctuation, the wildcard dot, and the quantifiers
on single atoms.  A doubled quantifier (multiple repeat, an re.error in
Python) gives none.  The fuel only bounds recursion; it starts at the
pattern length, which each step strictly decreases, so it never runs
out on any input. -/
def parseRegexAux : Nat → List Char → Option (List RPiece)
  | _, [] => some []
  | 0, _ :: _ => none
  | fuel + 1, s =>
    match parseAtom s with
    | none => none
    | some (a, rest) =>
      match applyQuant a rest with
      | (p, rest2) =>
        match rest2 with
        | [] => some [p]
        | c :: _ =>
          if isQuantChar c then none
          else
            match parseRegexAux fuel rest2 with
            | none => none
            | some ps => some (p :: ps)

def parseRegex (pat : List Char) : Option (List RPiece) :=
  parseRegexAux pat.length pat

/-- Atom match under re.IGNORECASE; the dot does not match a newline. -/
def atomMatch : RAtom → Char → Bool
  | RAtom.ch c, d => c.toLower == d.toLower
  | RAtom.dot, d => d != '\n'

/-- Backtracking regex match anchored at the start of the text, with
explicit fuel so that it computes by structural recursion.  Every
recursive call strictly decreases the pair (text length, piece-list
length) in lexicographic order, and the piece list never grows past its
entry length, so a fuel of (text length + 1) * (pieces + 1) is always
enough: the fuel-exhausted branch is unreachable from matchHere. -/
def matchHereF : Nat → List RPiece → List Char → Bool
  | 0, _, _ => false
  | _ + 1, [], _ => true
  | _ + 1, RPiece.once _ :: _, [] => false
  | fuel + 1, RPiece.once a :: ps, c :: cs => atomMatch a c && matchHereF fuel ps cs
  | fuel + 1, RPiece.opt _ :: ps, [] => matchHereF fuel ps []
  | fuel + 1, RPiece.opt a :: ps, c :: cs =>
    (atomMatch a c && matchHereF fuel ps cs) || matchHereF fuel ps (c :: cs)
  | fuel + 1, RPiece.star _ :: ps, [] => matchHereF fuel ps []
  | fuel + 1, RPiece.star a :: ps, c :: cs =>
    (atomMatch a c && matchHereF fuel (RPiece.star a :: ps) cs) || matchHereF fuel ps (c :: cs)
  | _ + 1, RPiece.plus _ :: _, [] => false
  | fuel + 1, RPiece.plus a :: ps, c :: cs => atomMatch a c && matchHereF fuel (RPiece.star a :: ps) cs

def matchHere (ps : List RPiece) (s : List Char) : Bool :=
  matchHereF ((s.length + 1) * (ps.length + 1)) ps s

/-- re.search: does the pattern match starting at some position. -/
def reSearch (ps : List RPiece) : List Char → Bool
  | [] => matchHere ps []
  | c :: cs => matchHere ps (c :: cs) || reSearch ps cs

/-- Lines 53-55 of app.py: the media join.  pandas
str.contains(str(product_id), case=False, na=False) applied to
youtube_df['ProductID'].astype(str) searches each (stringified) id for
the product id compiled as a regex with IGNORECASE; astype(str) has
already turned every NaN into the text "nan", so na=False never
applies.  An id outside the modelled regex fragment is a fault. -/
def related_videos (product_id : String) (youtube_df : List VideoRow) : Except Unit (List VideoRow) :=
  match parseRegex product_id.data with
  | none => Except.error ()
  | some ps => Except.ok (youtube_df.filter (fun v => reSearch ps (cellStr v.productID).data))

def dataUnavailableMsg : String :=
  "Sorry, the product data could not be loaded. Please check the data files."

def noMatchMsg : String :=
  "I\x27m sorry, I couldn\x27t find any products related to your query. Try asking about a specific type of equipment like \x27rope\x27 or \x27balance\x27."

def headerMsg : String :=
  "Here are some WeckMethod products that might help with what you\x27re looking for:"

def noVideoMsg : String :=
  "\n\n> _I couldn\x27t find a specific training video for this product right now, but check out our YouTube channel for more!_"

/-- Line 62 of app.py: the link line for the first joined video. -/
def watchStr (v : VideoRow) : String :=
  "\n\n> _Watch a related training video:_ [" ++ cellStr v.videoTitle ++ "](" ++ cellStr v.videoURL ++ ")"

/-- Lines 57-64 of app.py: the video part of one product block; the
code picks the first joined row (iloc[0]) or the fixed fallback. -/
def video_info (product_id : String) (youtube_df : List VideoRow) : Except Unit String :=
  match related_videos product_id youtube_df with
  | Except.error e => Except.error e
  | Except.ok [] => Except.ok noVideoMsg
  | Except.ok (v :: _) => Except.ok (watchStr v)

/-- Lines 66-69 of app.py: the formatted block of one matched product. -/
def blockStr (p : ProductRow) (vinfo : String) : String :=
  "- **" ++ cellStr p.productName ++ "**: Great for " ++
    lowerStr (kwGet p.relatedKeywords "general training") ++
    ". \n  *Learn more here:* [" ++ cellStr p.productURL ++ "](" ++ cellStr p.productURL ++ ")" ++ vinfo

def product_block (p : ProductRow) (youtube_df : List VideoRow) : Except Unit String :=
  match video_info (cellStr p.productID) youtube_df with
  | Except.error e => Except.error e
  | Except.ok vinfo => Except.ok (blockStr p vinfo)

/-- Lines 45-69 of app.py: the responder loop over matched products. -/
def blocksOf (youtube_df : List VideoRow) : List ProductRow → Except Unit (List String)
  | [] => Except.ok []
  | p :: rest =>
    match product_block p youtube_df with
    | Except.error e => Except.error e
    | Except.ok b =>
      match blocksOf youtube_df rest with
      | Except.error e => Except.error e
      | Except.ok bs => Except.ok (b :: bs)

/-- Python str.join. -/
def pyJoin (sep : String) : List String → String
  | [] => ""
  | [s] => s
  | s :: rest => s ++ sep ++ pyJoin sep rest

/-- Lines 20-71 of app.py: the chatbot core. -/
def get_simple_chatbot_response (user_query : String) (products_df : List ProductRow)
    (youtube_df : List VideoRow) : Except Unit String :=
  if products_df.isEmpty || youtube_df.isEmpty then Except.ok dataUnavailableMsg
  else
    match relevant_products (user_keywords user_query) products_df with
    | Except.error e => Except.error e
    | Except.ok rel =>
      if rel.isEmpty then Except.ok noMatchMsg
      else
        match blocksOf youtube_df rel with
        | Except.error e => Except.error e
        | Except.ok blocks => Except.ok (pyJoin "\n\n" (headerMsg :: blocks))

/-- One call of the core against a snapshot state: the core reads the
two snapshots and leaves them as they are (the source only iterates
over and filters the frames, never assigns into them). -/
def answer_call (user_query : String) (state : List ProductRow × List VideoRow) :
    Except Unit String × (List ProductRow × List VideoRow) :=
  (get_simple_chatbot_response user_query state.1 state.2, state)

/-- Catalog Index invariant of the spec: every row has a textual name. -/
def namesPresent (df : List ProductRow) : Bool :=
  df.all (fun p => match p.productName with | Cell.str _ => true | Cell.null => false)

/-- Every product id of the table lies in the modelled regex fragment. -/
def idsParseable (df : List ProductRow) : Bool :=
  df.all (fun p => (parseRegex (cellStr p.productID).data).isSome)

/-- The matcher's per-product test: some keyword occurs as a substring
of the comparison text. -/
def matchesQuery (kws : List String) (p : ProductRow) : Bool :=
  kws.any (fun k => occursIn k.data (comparison_text p).data)

/-- The video line shown for a joined list: its first row or the fallback. -/
def firstVideoStr : List VideoRow → String
  | [] => noVideoMsg
  | v :: _ => watchStr v

/-- The video part of a block in total form, for a parsed id pattern. -/
def video_info_str (ps : List RPiece) (ydf : List VideoRow) : String :=
  firstVideoStr (ydf.filter (fun v => reSearch ps (cellStr v.productID).data))

/-- Case split of blockTotal on the parsed id pattern. -/
def blockTotalAux (ydf : List VideoRow) (p : ProductRow) : Option (List RPiece) → String
  | none => ""
  | some ps => blockStr p (video_info_str ps ydf)

/-- The block of one matched product in total form; only meaningful
when the id pattern parses, which every theorem using it assumes. -/
def blockTotal (ydf : List VideoRow) (p : ProductRow) : String :=
  blockTotalAux ydf p (parseRegex (cellStr p.productID).data)

/-- Sample rows used by the concrete witnesses. -/
def exProduct : ProductRow :=
  ⟨Cell.str "P1", Cell.str "BOSU Elite", Cell.str "http://x/p", some (Cell.str "balance core")⟩

def exVideo : VideoRow := ⟨Cell.str "P1", Cell.str "BOSU Elite Intro", Cell.str "http://x/1"⟩

def exRopeProduct : ProductRow :=
  ⟨Cell.str "P1", Cell.str "Rope", Cell.str "http://x/r", some (Cell.str "training")⟩

def exFarVideo : VideoRow := ⟨Cell.str "ZZZ", Cell.str "Far", Cell.str "http://x/z"⟩

/-- Sublists kept by a filter keep any all-quantified boolean invariant. -/
theorem all_filter {α : Type} (f g : α → Bool) (l : List α) (h : l.all f = true) :
    (l.filter g).all f = true := by
  rw [List.all_eq_true] at h ⊢
  intro x hx
  exact h x (List.mem_filter.mp hx).1

/-- The matcher equals the filter of the table by the per-product test,
whenever every row has a textual name. -/
theorem relevant_products_eq_filter (kws : List String) (df : List ProductRow)
    (h : namesPresent df = true) :
    relevant_products kws df = Except.ok (df.filter (matchesQuery kws)) := by
  induction df with
  | nil => rfl
  | cons p rest ih =>
    rw [namesPresent, List.all_cons, Bool.and_eq_true] at h
    obtain ⟨hp, hrest⟩ := h
    have hr := ih hrest
    cases hnm : p.productName with
    | null => rw [hnm] at hp; simp at hp
    | str nm =>
      have htxt : product_text p = Except.ok (comparison_text p) := by
        rw [product_text, comparison_text, hnm, cellStr]
      simp only [relevant_products, htxt, hr]
      rw [List.filter_cons]
      by_cases hc : matchesQuery kws p = true
      · have hc2 : (kws.any fun k => occursIn k.data (comparison_text p).data) = true := by
          rw [matchesQuery] at hc
          exact hc
        rw [if_pos hc, if_pos hc2]
      · have hc2 : ¬(kws.any fun k => occursIn k.data (comparison_text p).data) = true := by
          rw [matchesQuery] at hc
          exact hc
        rw [if_neg hc, if_neg hc2]

/-- A join of one or more strings begins with the first string. -/
theorem pyJoin_cons (sep x : String) (l : List String) :
    ∃ t : String, pyJoin sep (x :: l) = x ++ t := by
  cases l with
  | nil => exact ⟨"", (String.append_empty x).symm⟩
  | cons y r => exact ⟨sep ++ pyJoin sep (y :: r), String.append_assoc x sep (pyJoin sep (y :: r))⟩

/-- Every member of the joined list occurs inside the join. -/
theorem pyJoin_mem (sep x : String) (l : List String) (h : x ∈ l) :
    ∃ a b : String, pyJoin sep l = a ++ (x ++ b) := by
  induction l with
  | nil => cases h
  | cons y r ih =>
    rcases List.mem_cons.mp h with rfl | hx
    · obtain ⟨t, ht⟩ := pyJoin_cons sep x r
      exact ⟨"", t, by rw [ht, String.empty_append]⟩
    · cases r with
      | nil => cases hx
      | cons z r2 =>
        obtain ⟨a, b, hab⟩ := ih hx
        refine ⟨(y ++ sep) ++ a, b, ?_⟩
        have hj : pyJoin sep (y :: z :: r2) = (y ++ sep) ++ pyJoin sep (z :: r2) := rfl
        rw [hj, hab]
        simp only [String.append_assoc]

/-- A string with a nonempty left part is nonempty. -/
theorem append_ne_empty_left (a t : String) (ha : a ≠ "") : a ++ t ≠ "" := by
  intro h
  apply ha
  cases a with
  | mk l =>
    cases t with
    | mk m =>
      have h2 : l ++ m = [] := congrArg String.data h
      have h3 : l = [] := (List.append_eq_nil.mp h2).1
      rw [h3]

theorem headerMsg_ne_empty : headerMsg ≠ "" := by decide

/-- A product block computes totally once its id pattern parses. -/
theorem product_block_eq (p : ProductRow) (ydf : List VideoRow) (ps : List RPiece)
    (h : parseRegex (cellStr p.productID).data = some ps) :
    product_block p ydf = Except.ok (blockTotal ydf p) := by
  rw [product_block, video_info, related_videos, h, blockTotal, h]
  cases hf : List.filter (fun v => reSearch ps (cellStr v.productID).data) ydf with
  | nil => simp [hf, blockTotalAux, video_info_str, firstVideoStr]
  | cons v vs => simp [hf, blockTotalAux, video_info_str, firstVideoStr]

/-- The responder loop computes totally when every id pattern parses. -/
theorem blocksOf_eq (ydf : List VideoRow) (rel : List ProductRow)
    (h : idsParseable rel = true) :
    blocksOf ydf rel = Except.ok (rel.map (blockTotal ydf)) := by
  induction rel with
  | nil => rfl
  | cons p r ih =>
    rw [idsParseable, List.all_cons, Bool.and_eq_true] at h
    obtain ⟨hp, hr⟩ := h
    obtain ⟨ps, hps⟩ := Option.isSome_iff_exists.mp hp
    rw [blocksOf, product_block_eq p ydf ps hps, ih hr, List.map_cons]

/-- A nonempty list has isEmpty false. -/
theorem isEmpty_false_of_ne {α : Type} (l : List α) (h : l ≠ []) : l.isEmpty = false := by
  rw [Bool.eq_false_iff]
  intro hcon
  exact h (List.isEmpty_iff.mp hcon)

/-- With nonempty tables, textual names, and no matching product, the
core returns the fixed no-match message. -/
theorem response_no_match (q : String) (pdf : List ProductRow) (ydf : List VideoRow)
    (hp : pdf ≠ []) (hy : ydf ≠ []) (hn : namesPresent pdf = true)
    (hm : pdf.filter (matchesQuery (user_keywords q)) = []) :
    get_simple_chatbot_response q pdf ydf = Except.ok noMatchMsg := by
  rw [get_simple_chatbot_response, isEmpty_false_of_ne pdf hp, isEmpty_false_of_ne ydf hy]
  rw [relevant_products_eq_filter _ _ hn, hm]
  rfl

/-- With nonempty tables, textual names, parseable ids, and at least one
matching product, the core returns the header joined with one block per
matched product, in table order. -/
theorem response_blocks (q : String) (pdf : List ProductRow) (ydf : List VideoRow)
    (hp : pdf ≠ []) (hy : ydf ≠ []) (hn : namesPresent pdf = true)
    (hid : idsParseable pdf = true)
    (hm : pdf.filter (matchesQuery (user_keywords q)) ≠ []) :
    get_simple_chatbot_response q pdf ydf =
      Except.ok (pyJoin "\n\n" (headerMsg ::
        (pdf.filter (matchesQuery (user_keywords q))).map (blockTotal ydf))) := by
  rw [get_simple_chatbot_response, isEmpty_false_of_ne pdf hp, isEmpty_false_of_ne ydf hy]
  rw [relevant_products_eq_filter _ _ hn]
  have hid2 : idsParseable (pdf.filter (matchesQuery (user_keywords q))) = true :=
    all_filter _ _ pdf hid
  have hie : (pdf.filter (matchesQuery (user_keywords q))).isEmpty = false :=
    isEmpty_false_of_ne _ hm
  simp [hie, blocksOf_eq ydf _ hid2]

/-- C1: for every query with a nonempty keyword set and every nonempty
pair of tables whose product rows carry textual names (the Catalog
Index invariant), the matched sequence equals exactly the filter of the
product table that keeps a product iff at least one query keyword
occurs as a substring of its comparison text (lowercase name, space,
lowercase keywords, stripped), preserving table order: soundness and
completeness of the matcher. -/
theorem c1_matcher_exact_filter (q : String) (pdf : List ProductRow) (ydf : List VideoRow)
    (hk : user_keywords q ≠ []) (hp : pdf ≠ []) (hy : ydf ≠ [])
    (hn : namesPresent pdf = true) :
    relevant_products (user_keywords q) pdf =
      Except.ok (pdf.filter
        (fun p => (user_keywords q).any (fun k => occursIn k.data (comparison_text p).data))) :=
  relevant_products_eq_filter (user_keywords q) pdf hn

theorem c1_witness :
    user_keywords "core strength" ≠ [] ∧ ([exProduct] : List ProductRow) ≠ [] ∧
    ([exVideo] : List VideoRow) ≠ [] ∧ namesPresent [exProduct] = true ∧
    relevant_products (user_keywords "core strength") [exProduct] =
      Except.ok ([exProduct].filter
        (fun p => (user_keywords "core strength").any
          (fun k => occursIn k.data (comparison_text p).data))) :=
  ⟨by decide, by decide, by decide, by decide,
    c1_matcher_exact_filter "core strength" [exProduct] [exVideo]
      (by decide) (by decide) (by decide) (by decide)⟩

/-- C3: if either snapshot is empty, the core short-circuits to the
fixed data-unavailable message for every query. -/
theorem c3_data_unavailable (q : String) (pdf : List ProductRow) (ydf : List VideoRow)
    (h : pdf = [] ∨ ydf = []) :
    get_simple_chatbot_response q pdf ydf = Except.ok dataUnavailableMsg := by
  rcases h with rfl | rfl
  · rfl
  · cases pdf <;> rfl

theorem c3_witness :
    (([] : List ProductRow) = [] ∨ ([] : List VideoRow) = []) ∧
    get_simple_chatbot_response "anything at all" [] [] = Except.ok dataUnavailableMsg :=
  ⟨Or.inl rfl, c3_data_unavailable "anything at all" [] [] (Or.inl rfl)⟩

/-- C4: a query with an empty keyword set (such as an empty or
whitespace-only query) makes the matcher yield zero matches, and with
nonempty well-formed tables the core returns the fixed no-match
message, which is not empty. -/
theorem c4_empty_keyword_set (q : String) (pdf : List ProductRow) (ydf : List VideoRow)
    (hk : user_keywords q = []) (hp : pdf ≠ []) (hy : ydf ≠ [])
    (hn : namesPresent pdf = true) :
    relevant_products (user_keywords q) pdf = Except.ok [] ∧
    get_simple_chatbot_response q pdf ydf = Except.ok noMatchMsg ∧
    noMatchMsg ≠ "" := by
  have hfil : pdf.filter (matchesQuery (user_keywords q)) = [] := by
    rw [hk]
    apply List.filter_eq_nil_iff.mpr
    intro p _
    rw [matchesQuery]
    simp
  refine ⟨?_, response_no_match q pdf ydf hp hy hn hfil, by decide⟩
  rw [relevant_products_eq_filter _ _ hn, hfil]

theorem c4_witness :
    user_keywords "  to be  " = [] ∧
    get_simple_chatbot_response "  to be  " [exProduct] [exVideo] = Except.ok noMatchMsg :=
  ⟨by decide,
    (c4_empty_keyword_set "  to be  " [exProduct] [exVideo]
      (by decide) (by decide) (by decide) (by decide)).2.1⟩

/-- C7: the core is a pure, deterministic function of the query and
the two snapshots: a call leaves the snapshot state unchanged, and a
second call on the state left behind returns a byte-identical output. -/
theorem c7_pure_and_idempotent (q : String) (st : List ProductRow × List VideoRow) :
    (answer_call q st).2 = st ∧
    (answer_call q ((answer_call q st).2)).1 = (answer_call q st).1 :=
  ⟨rfl, rfl⟩

/-- C9: the media join applies the product id as a regex pattern: the
id "a.b" selects a media row whose productId "axb" does not contain
"a.b" as a literal substring, and the id "a+b" rejects a media row
whose productId "xa+by" does contain "a+b" literally; so literal
containment is only guaranteed for regex-inert ids. -/
theorem c9_join_is_regex_not_substring :
    (related_videos "a.b" [⟨Cell.str "axb", Cell.str "T", Cell.str "U"⟩] =
       Except.ok [⟨Cell.str "axb", Cell.str "T", Cell.str "U"⟩] ∧
     occursIn (String.data "a.b") (String.data "axb") = false) ∧
    (related_videos "a+b" [⟨Cell.str "xa+by", Cell.str "T", Cell.str "U"⟩] = Except.ok [] ∧
     occursIn (String.data "a+b") (String.data "xa+by") = true) :=
  ⟨⟨rfl, rfl⟩, ⟨rfl, rfl⟩⟩

/-- C2 counterexample: with product id "." the response's video line
lists a media row whose productId "Z" does not contain "." as a literal
substring, so the containment clause of the claim fails as stated. -/
theorem c2_counterexample :
    video_info "." [⟨Cell.str "Z", Cell.str "T", Cell.str "U"⟩] =
      Except.ok (watchStr ⟨Cell.str "Z", Cell.str "T", Cell.str "U"⟩) ∧
    occursIn (String.data ".") (String.data "Z") = false :=
  ⟨rfl, rfl⟩

/-- C2 amended: for every product id whose pattern parses, the media
join selects exactly the media rows whose productId text matches the id
applied as a regex pattern (case-insensitive), in Media Index order;
the block lists at most the first such row (hence at most the first 3),
and only rows whose productId matches the pattern. -/
theorem c2_media_join_regex (pid : String) (ydf : List VideoRow) (ps : List RPiece)
    (h : parseRegex pid.data = some ps) :
    related_videos pid ydf =
      Except.ok (ydf.filter (fun v => reSearch ps (cellStr v.productID).data)) ∧
    (ydf.filter (fun v => reSearch ps (cellStr v.productID).data) = [] →
      video_info pid ydf = Except.ok noVideoMsg) ∧
    (∀ v rest, ydf.filter (fun v => reSearch ps (cellStr v.productID).data) = v :: rest →
      video_info pid ydf = Except.ok (watchStr v) ∧
      v ∈ (ydf.filter (fun v => reSearch ps (cellStr v.productID).data)).take 3 ∧
      reSearch ps (cellStr v.productID).data = true) := by
  refine ⟨by rw [related_videos, h], ?_, ?_⟩
  · intro hf
    simp [video_info, related_videos, h, hf]
  · intro v rest hf
    refine ⟨by simp [video_info, related_videos, h, hf], ?_, ?_⟩
    · rw [hf]
      exact List.mem_cons_self v (rest.take 2)
    · have hv : v ∈ ydf.filter (fun v => reSearch ps (cellStr v.productID).data) := by
        rw [hf]
        exact List.mem_cons_self v rest
      exact (List.mem_filter.mp hv).2

theorem c2_witness :
    parseRegex (String.data "P1") =
      some [RPiece.once (RAtom.ch 'P'), RPiece.once (RAtom.ch '1')] ∧
    related_videos "P1" [exVideo] =
      Except.ok ([exVideo].filter (fun v =>
        reSearch [RPiece.once (RAtom.ch 'P'), RPiece.once (RAtom.ch '1')]
          (cellStr v.productID).data)) :=
  ⟨rfl, (c2_media_join_regex "P1" [exVideo] _ rfl).1⟩

/-- C5: a matched product to which no media row joins still gets its
block in the answer, ending in the fixed no-video notice instead of a
video line; the call succeeds globally. -/
theorem c5_no_video_fallback (q : String) (pdf : List ProductRow) (ydf : List VideoRow)
    (p : ProductRow) (rel : List ProductRow)
    (hp : pdf ≠ []) (hy : ydf ≠ [])
    (hn : namesPresent pdf = true) (hid : idsParseable pdf = true)
    (hrel : relevant_products (user_keywords q) pdf = Except.ok rel)
    (hmem : p ∈ rel)
    (hjoin : related_videos (cellStr p.productID) ydf = Except.ok []) :
    ∃ ans a b : String,
      get_simple_chatbot_response q pdf ydf = Except.ok ans ∧
      ans = a ++ (blockStr p noVideoMsg ++ b) := by
  have hrel2 := relevant_products_eq_filter (user_keywords q) pdf hn
  rw [hrel] at hrel2
  have hrelEq : rel = pdf.filter (matchesQuery (user_keywords q)) := by
    injection hrel2
  have hmfil : p ∈ pdf.filter (matchesQuery (user_keywords q)) := hrelEq ▸ hmem
  have hne : pdf.filter (matchesQuery (user_keywords q)) ≠ [] := by
    intro hcon
    rw [hcon] at hmfil
    cases hmfil
  have hmain := response_blocks q pdf ydf hp hy hn hid hne
  have hpmem : p ∈ pdf := (List.mem_filter.mp hmfil).1
  have hid2 : pdf.all (fun r => (parseRegex (cellStr r.productID).data).isSome) = true := hid
  obtain ⟨ps, hps2⟩ := Option.isSome_iff_exists.mp (List.all_eq_true.mp hid2 p hpmem)
  have hfil0 : ydf.filter (fun v => reSearch ps (cellStr v.productID).data) = [] := by
    simp [related_videos, hps2] at hjoin
    apply List.filter_eq_nil_iff.mpr
    intro a ha
    rw [hjoin a ha]
    exact Bool.false_ne_true
  have hbt : blockTotal ydf p = blockStr p noVideoMsg := by
    rw [blockTotal, hps2]
    simp [blockTotalAux, video_info_str, hfil0, firstVideoStr]
  have hbmem : blockStr p noVideoMsg ∈
      headerMsg :: (pdf.filter (matchesQuery (user_keywords q))).map (blockTotal ydf) := by
    apply List.mem_cons_of_mem
    rw [← hbt]
    exact List.mem_map_of_mem (blockTotal ydf) hmfil
  obtain ⟨a, b, hab⟩ := pyJoin_mem "\n\n" (blockStr p noVideoMsg) _ hbmem
  exact ⟨_, a, b, hmain, hab⟩

theorem c5_witness :
    relevant_products (user_keywords "rope") [exRopeProduct] = Except.ok [exRopeProduct] ∧
    related_videos (cellStr exRopeProduct.productID) [exFarVideo] = Except.ok [] ∧
    (∃ ans a b : String,
      get_simple_chatbot_response "rope" [exRopeProduct] [exFarVideo] = Except.ok ans ∧
      ans = a ++ (blockStr exRopeProduct noVideoMsg ++ b)) :=
  ⟨rfl, rfl,
    c5_no_video_fallback "rope" [exRopeProduct] [exFarVideo] exRopeProduct [exRopeProduct]
      (by decide) (by decide) (by decide) (by decide) rfl (List.mem_cons_self _ _) rfl⟩

/-- C6 counterexample: a product whose RelatedKeywords cell is NaN gets
comparison text "rope nan" (str() renders the missing value as the
matchable text "nan"), not the bare lowercase name, and the query word
"nan" then matches the product. -/
theorem c6_counterexample :
    product_text ⟨Cell.str "P1", Cell.str "Rope", Cell.str "u", some Cell.null⟩ =
      Except.ok "rope nan" ∧
    relevant_products ["nan"] [⟨Cell.str "P1", Cell.str "Rope", Cell.str "u", some Cell.null⟩] =
      Except.ok [⟨Cell.str "P1", Cell.str "Rope", Cell.str "u", some Cell.null⟩] ∧
    ("rope nan" : String) ≠ "rope" :=
  ⟨rfl, rfl, by decide⟩

/-- C6 amended: a keywords field absent at the column level is treated
as the empty string, so the comparison text is the stripped lowercase
name; but a null (NaN) keywords cell in a present column contributes
the matchable text "nan" to the comparison text. -/
theorem c6_absent_vs_null_keywords (pid nm url : Cell) (nmS : String)
    (hnm : nm = Cell.str nmS) :
    product_text ⟨pid, nm, url, none⟩ =
      Except.ok (stripStr (lowerStr nmS ++ " " ++ lowerStr "")) ∧
    product_text ⟨pid, nm, url, some Cell.null⟩ =
      Except.ok (stripStr (lowerStr nmS ++ " " ++ lowerStr "nan")) := by
  subst hnm
  exact ⟨rfl, rfl⟩

theorem c6_witness :
    (Cell.str "Rope" = Cell.str "Rope") ∧
    product_text ⟨Cell.str "P1", Cell.str "Rope", Cell.str "u", none⟩ =
      Except.ok (stripStr (lowerStr "Rope" ++ " " ++ lowerStr "")) :=
  ⟨rfl, (c6_absent_vs_null_keywords (Cell.str "P1") (Cell.str "Rope") (Cell.str "u") "Rope" rfl).1⟩

/-- C8 counterexample: a catalog row whose ProductName is NaN makes the
core fault (AttributeError on .lower) even though all other data is
present, so the claim fails for snapshots with a missing name. -/
theorem c8_counterexample :
    get_simple_chatbot_response "rope" [⟨Cell.str "P1", Cell.null, Cell.str "u", none⟩]
      [⟨Cell.str "P1", Cell.str "T", Cell.str "U"⟩] = Except.error () :=
  rfl

/-- C8 amended: whenever every catalog row has a textual ProductName
and every product id is a plain (parseable) pattern, the core
terminates with a well-formed nonempty answer string on every query and
every pair of snapshots, including rows with missing keywords, missing
urls, or missing media fields. -/
theorem c8_total_under_invariants (q : String) (pdf : List ProductRow) (ydf : List VideoRow)
    (hn : namesPresent pdf = true) (hid : idsParseable pdf = true) :
    ∃ s : String, get_simple_chatbot_response q pdf ydf = Except.ok s ∧ s ≠ "" := by
  by_cases hp : pdf = []
  · subst hp
    exact ⟨dataUnavailableMsg, rfl, by decide⟩
  by_cases hy : ydf = []
  · subst hy
    refine ⟨dataUnavailableMsg, ?_, by decide⟩
    cases pdf <;> rfl
  by_cases hm : pdf.filter (matchesQuery (user_keywords q)) = []
  · exact ⟨noMatchMsg, response_no_match q pdf ydf hp hy hn hm, by decide⟩
  · have hmain := response_blocks q pdf ydf hp hy hn hid hm
    obtain ⟨t, ht⟩ := pyJoin_cons "\n\n" headerMsg
      ((pdf.filter (matchesQuery (user_keywords q))).map (blockTotal ydf))
    refine ⟨_, hmain, ?_⟩
    rw [ht]
    exact append_ne_empty_left headerMsg t headerMsg_ne_empty

theorem c8_witness :
    namesPresent [exProduct] = true ∧ idsParseable [exProduct] = true ∧
    (∃ s : String,
      get_simple_chatbot_response "core strength" [exProduct] [exVideo] = Except.ok s ∧ s ≠ "") :=
  ⟨rfl, rfl, c8_total_under_invariants "core strength" [exProduct] [exVideo] rfl rfl⟩

/-- C10 counterexample: a media row whose productId is NaN is selected
and listed for product id "an": astype(str) turns NaN into the text
"nan" before the join, so na=False never treats it as a non-match. -/
theorem c10_counterexample :
    related_videos "an" [⟨Cell.null, Cell.str "T", Cell.str "U"⟩] =
      Except.ok [⟨Cell.null, Cell.str "T", Cell.str "U"⟩] ∧
    video_info "an" [⟨Cell.null, Cell.str "T", Cell.str "U"⟩] =
      Except.ok (watchStr ⟨Cell.null, Cell.str "T", Cell.str "U"⟩) :=
  ⟨rfl, rfl⟩

/-- C10 amended: a media row with a NaN productId is stringified to
"nan" before the join, so it is selected exactly when the product's id
pattern matches the text "nan"; it is excluded only for id patterns
that do not match "nan". -/
theorem c10_nan_productid_match (pid : String) (ps : List RPiece) (ydf sel : List VideoRow)
    (t u : Cell) (h : parseRegex pid.data = some ps)
    (hsel : related_videos pid ydf = Except.ok sel) :
    (⟨Cell.null, t, u⟩ : VideoRow) ∈ sel ↔
      (⟨Cell.null, t, u⟩ : VideoRow) ∈ ydf ∧ reSearch ps (String.data "nan") = true := by
  simp [related_videos, h] at hsel
  rw [← hsel, List.mem_filter]
  exact Iff.rfl

theorem c10_witness :
    related_videos "an" [⟨Cell.null, Cell.str "X", Cell.str "Y"⟩] =
      Except.ok [⟨Cell.null, Cell.str "X", Cell.str "Y"⟩] ∧
    ((⟨Cell.null, Cell.str "X", Cell.str "Y"⟩ : VideoRow) ∈
        ([⟨Cell.null, Cell.str "X", Cell.str "Y"⟩] : List VideoRow) ↔
      (⟨Cell.null, Cell.str "X", Cell.str "Y"⟩ : VideoRow) ∈
        ([⟨Cell.null, Cell.str "X", Cell.str "Y"⟩] : List VideoRow) ∧
      reSearch [RPiece.once (RAtom.ch 'a'), RPiece.once (RAtom.ch 'n')]
        (String.data "nan") = true) :=
  ⟨rfl, c10_nan_productid_match "an" _ _ _ _ _ rfl rfl⟩
